import Mathlib

/-!
Shallow embedding of `rmqtt-plugins/rmqtt-cluster-raft/src/lib.rs`.

Async effects (network resolution, RPC send attempts, raft status queries)
are modelled as oracles: a function from the attempt index to the result the
environment produces for that attempt.  Sleeps are recorded as lists of
millisecond durations.  Panics (`unreachable!`, `expect`) are modelled as an
explicit constructor.
-/

namespace RmqttClusterRaft

/-- Model of `rmqtt_raft::Mailbox`: a cloneable handle, identity only. -/
structure Mailbox where
  mid : Nat
deriving Repr, DecidableEq

/-- Model of `rmqtt_raft::Status` as used here: only `is_started()` is read. -/
structure Status where
  is_started : Bool
deriving Repr, DecidableEq

/-- Model of `MqttError` as constructed in this file: either
`MqttError::from(<string>)`, a boxed source error (`MqttError::Error(Box::new(e))`),
or an `anyhow`-wrapped error (`map_err(anyhow::Error::new)`). -/
inductive MqttErrorM
  | fromMsg (s : String)
  | boxedError
  | anyhowError
deriving Repr, DecidableEq

/-- One `(id, addr)` entry of `cfg.raft_peer_addrs` (a `NodeAddr` in the config). -/
structure NodeAddr where
  id : Nat
  addr : String
deriving Repr, DecidableEq

/-- Outcome of a computation that may hit a panic (`unreachable!` / `expect`). -/
inductive PanicOr (α : Type)
  | panicked
  | res (a : α)
deriving Repr, DecidableEq

/-! ## `parse_addr` (lib.rs lines 331-349)

`addr.to_socket_addrs()` is an oracle `resolve : Nat → Except Unit (List String)`
giving, for round `i`, either a resolution error or the (possibly empty) list of
resolved socket addresses.  The returned `Nat` counts resolution attempts
actually performed. -/

/-- The `for i in 0..10` loop of `parse_addr`, with `i` the current round and
`fuel` the remaining rounds (`i + fuel = 10` at the top-level call). -/
def parseAddrGo (resolve : Nat → Except Unit (List String)) (addr : String) :
    Nat → Nat → Except MqttErrorM String × Nat
  | _, 0 => (.error (.fromMsg ("Parsing address\"" ++ addr ++ "\" error")), 0)
  | i, fuel + 1 =>
    match resolve i with
    | .ok to_socket_addrs =>
      match to_socket_addrs with
      | a :: _ => (.ok a, 1)
      | [] =>
        let r := parseAddrGo resolve addr (i + 1) fuel
        (r.1, r.2 + 1)
    | .error _ =>
      let r := parseAddrGo resolve addr (i + 1) fuel
      (r.1, r.2 + 1)

/-- Function `parse_addr`: up to 10 resolution rounds, first nonempty result wins. -/
def parse_addr (resolve : Nat → Except Unit (List String)) (addr : String) :
    Except MqttErrorM String × Nat :=
  parseAddrGo resolve addr 0 10

/-- A round yields no endpoint: resolution error, or success with zero results. -/
def noEndpoint : Except Unit (List String) → Bool
  | .ok [] => true
  | .ok (_ :: _) => false
  | .error _ => true

/-! ## `MessageSender::send` (lib.rs lines 361-379)

`self.client.send_message(..)` is an oracle indexed by `current_retry` (the
attempt counter): attempt `n` runs with `current_retry = n`. -/

structure SendOutcome (E R : Type) where
  result : Except E R
  attempts : Nat
  sleeps : List Nat
deriving Repr

/-- The `loop` of `MessageSender::send`, entered with the given
`current_retry` (0 at the top-level call). -/
def sendFrom (attempt : Nat → Except MqttErrorM R) (max_retries retry_interval : Nat)
    (current_retry : Nat) : SendOutcome MqttErrorM R :=
  match attempt current_retry with
  | .ok reply => ⟨.ok reply, 1, []⟩
  | .error e =>
    if h : current_retry < max_retries then
      let rest := sendFrom attempt max_retries retry_interval (current_retry + 1)
      ⟨rest.result, rest.attempts + 1, retry_interval :: rest.sleeps⟩
    else
      ⟨.error e, 1, []⟩
termination_by max_retries - current_retry
decreasing_by simp_wf; omega

/-- Method `MessageSender::send`: result, number of `send_message` attempts, and the
sleeps (in ms) performed between attempts. -/
def send (attempt : Nat → Except MqttErrorM R) (max_retries retry_interval : Nat) :
    SendOutcome MqttErrorM R :=
  sendFrom attempt max_retries retry_interval 0

/-! ## The supervisor runner (lib.rs lines 171-197)

`raft_handle : Result<Result<(), rmqtt_raft::Error>, tokio::task::JoinError>`
is the completed value of the LEADER-or-FOLLOWER future.  `runnerStep` is what
the dedicated cluster-raft thread does once that future completes. -/

inductive RunnerEnd
  /-- `sleep(500ms)` then `std::process::exit(-1)`. -/
  | fatalExit (sleepMs : Nat) (code : Int)
  /-- falls out of `block_on`, logs "exit cluster raft worker", thread ends;
  the process keeps running. -/
  | threadEnd
deriving Repr, DecidableEq

/-- Model of `if let Err(_) | Ok(Err(_)) = raft_handle` followed by `exit(-1)`. -/
def runnerStep (raft_handle : Except J (Except E Unit)) : RunnerEnd :=
  match raft_handle with
  | .error _ => .fatalExit 500 (-1)
  | .ok (.error _) => .fatalExit 500 (-1)
  | .ok (.ok _) => .threadEnd

/-! ## `start_raft` (lib.rs lines 131-200)

The environment bundles the effectful collaborators: per-address resolution
oracles, `Raft::new`, and `raft.find_leader_info`.  Network activity is traced
as a list of events. -/

structure RaftEnv where
  resolve : String → Nat → Except Unit (List String)
  raft_new : String → Except Unit Mailbox
  find_leader_info : List String → Except Unit (Option (Nat × String))

inductive NetEvent
  | resolveAddr (addr : String)
  | engineConstructed (laddr : String)
  | leaderProbe (peer_addrs : List String)
deriving Repr, DecidableEq

/-- Role the spawned runner drives: `raft.lead(id)` or
`raft.join(id, Some(leader_id), leader_addr)`. -/
inductive Role
  | leader (id : Nat)
  | follower (id : Nat) (leader_id : Nat) (leader_addr : String)
deriving Repr, DecidableEq

/-- The branch on `leader_info` (lib.rs lines 174-186). -/
def roleOfLeaderInfo (id : Nat) : Option (Nat × String) → Role
  | some (leader_id, leader_addr) => .follower id leader_id leader_addr
  | none => .leader id

/-- The `for peer in raft_peer_addrs` loop (lib.rs lines 150-155): resolve
every non-self peer address, collecting the resolved strings and the trace. -/
def resolvePeers (env : RaftEnv) (id : Nat) :
    List NodeAddr → Except MqttErrorM (List String) × List NetEvent
  | [] => (.ok [], [])
  | peer :: rest =>
    if peer.id ≠ id then
      match (parse_addr (env.resolve peer.addr) peer.addr).1 with
      | .error e => (.error e, [.resolveAddr peer.addr])
      | .ok a =>
        match resolvePeers env id rest with
        | (.error e, tr) => (.error e, .resolveAddr peer.addr :: tr)
        | (.ok as, tr) => (.ok (a :: as), .resolveAddr peer.addr :: tr)
    else
      resolvePeers env id rest

/-- Method `ClusterPlugin::start_raft`: validate the self peer entry, verify the
listening address, construct the engine, resolve the other peers, probe for a
leader, and hand the chosen role to the dedicated thread.  Returns the result
(mailbox plus the role the runner will drive) and the network-activity trace. -/
def start_raft (env : RaftEnv) (id : Nat) (raft_peer_addrs : List NodeAddr) :
    Except MqttErrorM (Mailbox × Role) × List NetEvent :=
  match (raft_peer_addrs.find? (fun peer => peer.id == id)).map (fun peer => peer.addr) with
  | none => (.error (.fromMsg "raft listening address does not exist"), [])
  | some raft_laddr =>
    match (parse_addr (env.resolve raft_laddr) raft_laddr).1 with
    | .error e => (.error e, [.resolveAddr raft_laddr])
    | .ok _ =>
      match env.raft_new raft_laddr with
      | .error _ => (.error .boxedError, [.resolveAddr raft_laddr])
      | .ok mailbox =>
        match resolvePeers env id raft_peer_addrs with
        | (.error e, tr) =>
          (.error e, .resolveAddr raft_laddr :: .engineConstructed raft_laddr :: tr)
        | (.ok peer_addrs, tr) =>
          match env.find_leader_info peer_addrs with
          | .error _ =>
            (.error .boxedError,
              .resolveAddr raft_laddr :: .engineConstructed raft_laddr ::
                (tr ++ [.leaderProbe peer_addrs]))
          | .ok leader_info =>
            (.ok (mailbox, roleOfLeaderInfo id leader_info),
              .resolveAddr raft_laddr :: .engineConstructed raft_laddr ::
                (tr ++ [.leaderProbe peer_addrs]))

/-! ## The `init` startup-gate polling loop (lib.rs lines 226-239) -/

/-- The `for i in 0..30` status-polling loop, returning the number of
`status()` attempts performed and the sleeps (in ms). -/
def initPollGo (statusq : Nat → Except Unit Status) : Nat → Nat → Nat × List Nat
  | _, 0 => (0, [])
  | i, fuel + 1 =>
    match statusq i with
    | .ok status =>
      if status.is_started then (1, [])
      else
        let r := initPollGo statusq (i + 1) fuel
        (r.1 + 1, 500 :: r.2)
    | .error _ =>
      let r := initPollGo statusq (i + 1) fuel
      (r.1 + 1, 500 :: r.2)

def initPoll (statusq : Nat → Except Unit Status) : Nat × List Nat :=
  initPollGo statusq 0 30

/-- Attempt `j` does not observe a started status (query error, or a status
with `is_started() == false`). -/
def notStartedAt (statusq : Nat → Except Unit Status) (j : Nat) : Bool :=
  match statusq j with
  | .ok status => !status.is_started
  | .error _ => true

/-! ## The plugin object and its lifecycle methods -/

/-- The `ClusterPlugin` state relevant here: identity strings, the configured raft
peer list, and the stored mailbox (`None` until `init` stores it). -/
structure ClusterPlugin where
  name : String
  descr : String
  raft_peer_addrs : List NodeAddr
  raft_mailbox : Option Mailbox
deriving Repr, DecidableEq

/-- Accessor `ClusterPlugin::raft_mailbox()` (lib.rs lines 209-215): clones the stored
mailbox, or hits `unreachable!()` when none was stored. -/
def ClusterPlugin.raft_mailbox_acc (p : ClusterPlugin) : PanicOr Mailbox :=
  match p.raft_mailbox with
  | some raft_mailbox => .res raft_mailbox
  | none => .panicked

/-- Method `ClusterPlugin::init` of the `Plugin` impl: run `start_raft`, poll the status
gate (its outcome is only logged), store the mailbox, register hooks. -/
def ClusterPlugin.init (env : RaftEnv) (id : Nat)
    (statusq : Mailbox → Nat → Except Unit Status) (p : ClusterPlugin) :
    Except MqttErrorM ClusterPlugin :=
  match (start_raft env id p.raft_peer_addrs).1 with
  | .error e => .error e
  | .ok (raft_mailbox, _role) =>
    let _gate := initPoll (statusq raft_mailbox)
    .ok { p with raft_mailbox := some raft_mailbox }

/-- Method `ClusterPlugin::start` (lib.rs lines 262-275): fetch the mailbox (may
panic), query status, `Ok(())` iff the status query succeeds and reports
started. -/
def ClusterPlugin.start (statusq : Mailbox → Except Unit Status) (p : ClusterPlugin) :
    PanicOr (Except MqttErrorM Unit) :=
  match p.raft_mailbox_acc with
  | .panicked => .panicked
  | .res raft_mailbox =>
    match statusq raft_mailbox with
    | .error _ => .res (.error .anyhowError)
    | .ok status =>
      if status.is_started then .res (.ok ())
      else .res (.error (.fromMsg "Raft cluster status is abnormal"))

/-- The status query succeeded and reported started. -/
def statusStartedB (r : Except Unit Status) : Bool :=
  match r with
  | .ok status => status.is_started
  | .error _ => false

/-- The outcome is a non-panicking error return. -/
def isErrRes : PanicOr (Except MqttErrorM Unit) → Bool
  | .res (.error _) => true
  | .res (.ok _) => false
  | .panicked => false

/-- Method `ClusterPlugin::stop` (lib.rs lines 278-281): logs a warning and returns
`Ok(false)`; `self` is not modified. -/
def ClusterPlugin.stop (p : ClusterPlugin) : ClusterPlugin × Except MqttErrorM Bool :=
  (p, .ok false)

/-- Method `ClusterPlugin::attrs` (lib.rs lines 294-328): fetches the mailbox (may
panic) and reads `status().await.ok()`; the rest assembles observability json. -/
def ClusterPlugin.attrs (statusq : Mailbox → Except Unit Status) (p : ClusterPlugin) :
    PanicOr (Option Status) :=
  match p.raft_mailbox_acc with
  | .panicked => .panicked
  | .res raft_mailbox => .res (statusq raft_mailbox).toOption

inductive HookType
  | clientDisconnected
  | sessionTerminated
  | grpcMessageReceived
deriving Repr, DecidableEq

/-- Method `ClusterPlugin::hook_register` (lib.rs lines 203-207): builds a
`HookHandler` from the mailbox accessor (may panic) and registers it. -/
def ClusterPlugin.hook_register (p : ClusterPlugin) (typ : HookType) :
    PanicOr (HookType × Mailbox) :=
  match p.raft_mailbox_acc with
  | .panicked => .panicked
  | .res raft_mailbox => .res (typ, raft_mailbox)

/-! ## `init_task_exec_queue` (lib.rs lines 390-401)

`TASK_EXEC_QUEUE : OnceCell<TaskExecQueue>` is modelled as an
`Option Q` state; `OnceCell::set` succeeds only on an empty cell. -/

/-- Model of `OnceCell::set`: new cell state and whether the set succeeded. -/
def oncecellSet (cell : Option Q) (v : Q) : Option Q × Bool :=
  match cell with
  | none => (some v, true)
  | some w => (some w, false)

inductive InitQueueResult (Q : Type)
  | installed (cell : Option Q)
  | panicked (msg : String)
deriving Repr, DecidableEq

/-- Function `init_task_exec_queue`: builds the executor and `set(..).ok().expect(..)` —
a failed `set` panics with the expect message. -/
def init_task_exec_queue (cell : Option Q) (exec : Q) : InitQueueResult Q :=
  match oncecellSet cell exec with
  | (c, true) => .installed c
  | (_, false) => .panicked "Failed to initialize task execution queue"

/-! ## Theorems -/

/-- C1 counterexample: when the LEADER-or-FOLLOWER future completes
successfully (`Ok(Ok(()))`), the runner does not terminate the process: the
`if let Err(_) | Ok(Err(_))` branch is not taken, the dedicated thread simply
ends, and the process keeps running — contradicting "whether with success or
with error … terminates the entire process". -/
theorem C1_success_no_exit :
    runnerStep (Except.ok (Except.ok ()) : Except Unit (Except Unit Unit)) =
      RunnerEnd.threadEnd ∧
    RunnerEnd.threadEnd ≠ RunnerEnd.fatalExit 500 (-1) := by
  exact ⟨rfl, by decide⟩

/-- C1 (amended): if the LEADER-or-FOLLOWER future completes with an error —
either the spawned task fails to join or the raft future returns an error —
the supervisor sleeps 500 ms and terminates the process with the non-zero
exit status −1; if it completes successfully, the dedicated thread merely ends
and the process is not terminated. -/
theorem runner_exit_on_error (J E : Type) (j : J) (e : E) (u : Unit) :
    runnerStep (Except.error j : Except J (Except E Unit)) = RunnerEnd.fatalExit 500 (-1) ∧
    runnerStep (Except.ok (Except.error e) : Except J (Except E Unit)) =
      RunnerEnd.fatalExit 500 (-1) ∧
    runnerStep (Except.ok (Except.ok u) : Except J (Except E Unit)) = RunnerEnd.threadEnd ∧
    (-1 : Int) ≠ 0 := by
  exact ⟨rfl, rfl, rfl, by decide⟩

/-- C8: the task-exec queue is initialized exactly once — `init_task_exec_queue`
on an empty cell installs the executor, while a second initialization attempt
(cell already holding `q`) panics with the expect message rather than
replacing (`oncecellSet` keeps `some q`) or silently ignoring. -/
theorem init_task_exec_queue_once (Q : Type) (exec exec2 q : Q) :
    init_task_exec_queue (none : Option Q) exec = .installed (some exec) ∧
    init_task_exec_queue (some q) exec2 =
      .panicked "Failed to initialize task execution queue" ∧
    oncecellSet (some q) exec2 = (some q, false) := by
  exact ⟨rfl, rfl, rfl⟩

/-- C9: `ClusterPlugin::stop` always returns `Ok(false)` and leaves every
field of the plugin — name, descr, raft peer list, and the stored raft
mailbox — unchanged. -/
theorem stop_returns_false_preserves_state (p : ClusterPlugin) :
    p.stop = (p, .ok false) ∧
    p.stop.1.name = p.name ∧
    p.stop.1.descr = p.descr ∧
    p.stop.1.raft_peer_addrs = p.raft_peer_addrs ∧
    p.stop.1.raft_mailbox = p.raft_mailbox :=
  ⟨rfl, rfl, rfl, rfl, rfl⟩

/-- C10: on a plugin whose `raft_mailbox` is `None` (init has not stored it),
the `raft_mailbox()` accessor hits `unreachable!` and so do `start`, `attrs`,
and hook registration, which all call it; on a plugin holding `some m` the
accessor is total, returning `m`. -/
theorem raft_mailbox_none_panics (p q : ClusterPlugin)
    (statusq : Mailbox → Except Unit Status) (typ : HookType) (m : Mailbox)
    (hp : p.raft_mailbox = none) (hq : q.raft_mailbox = some m) :
    p.raft_mailbox_acc = .panicked ∧
    ClusterPlugin.start statusq p = .panicked ∧
    ClusterPlugin.attrs statusq p = .panicked ∧
    p.hook_register typ = .panicked ∧
    q.raft_mailbox_acc = .res m := by
  simp [ClusterPlugin.raft_mailbox_acc, ClusterPlugin.start, ClusterPlugin.attrs,
    ClusterPlugin.hook_register, hp, hq]

/-- Witness for C10 at a concrete uninitialized and a concrete initialized
plugin. -/
theorem raft_mailbox_none_panics_witness :
    (ClusterPlugin.mk "cluster" "d" [] none).raft_mailbox_acc = .panicked ∧
    ClusterPlugin.start (fun _ => .error ()) (ClusterPlugin.mk "cluster" "d" [] none) =
      .panicked ∧
    ClusterPlugin.attrs (fun _ => .error ()) (ClusterPlugin.mk "cluster" "d" [] none) =
      .panicked ∧
    (ClusterPlugin.mk "cluster" "d" [] none).hook_register .clientDisconnected = .panicked ∧
    (ClusterPlugin.mk "cluster" "d" [] (some ⟨3⟩)).raft_mailbox_acc = .res ⟨3⟩ :=
  raft_mailbox_none_panics (ClusterPlugin.mk "cluster" "d" [] none)
    (ClusterPlugin.mk "cluster" "d" [] (some ⟨3⟩)) (fun _ => .error ())
    .clientDisconnected ⟨3⟩ rfl rfl

/-- C7: given the stored mailbox, `ClusterPlugin::start` returns `Ok(())`
exactly when the raft status query succeeds and the status reports started;
when the query fails or the status is not started, it returns an error. -/
theorem start_ok_iff_started (p : ClusterPlugin) (mb : Mailbox)
    (statusq : Mailbox → Except Unit Status) (hmb : p.raft_mailbox = some mb) :
    (ClusterPlugin.start statusq p = .res (.ok ()) ↔ statusStartedB (statusq mb) = true) ∧
    (statusStartedB (statusq mb) = false →
      isErrRes (ClusterPlugin.start statusq p) = true) := by
  have hacc : p.raft_mailbox_acc = .res mb := by
    simp [ClusterPlugin.raft_mailbox_acc, hmb]
  cases hs : statusq mb with
  | error e =>
    simp [ClusterPlugin.start, hacc, hs, statusStartedB, isErrRes]
  | ok status =>
    cases hb : status.is_started <;>
      simp [ClusterPlugin.start, hacc, hs, statusStartedB, isErrRes, hb]

/-- Witness for C7: a plugin with a stored mailbox and a started status. -/
theorem start_ok_iff_started_witness :
    (ClusterPlugin.start (fun _ => .ok ⟨true⟩)
        (ClusterPlugin.mk "cluster" "d" [] (some ⟨0⟩)) = .res (.ok ()) ↔
      statusStartedB ((fun _ => .ok ⟨true⟩ : Mailbox → Except Unit Status) ⟨0⟩) = true) ∧
    (statusStartedB ((fun _ => .ok ⟨true⟩ : Mailbox → Except Unit Status) ⟨0⟩) = false →
      isErrRes (ClusterPlugin.start (fun _ => .ok ⟨true⟩)
        (ClusterPlugin.mk "cluster" "d" [] (some ⟨0⟩))) = true) :=
  start_ok_iff_started (ClusterPlugin.mk "cluster" "d" [] (some ⟨0⟩)) ⟨0⟩
    (fun _ => .ok ⟨true⟩) rfl

/-- Helper: when every attempt from `c` through `max_retries` fails, the send
loop performs all remaining attempts, sleeps between consecutive ones, and
returns the last error. -/
theorem sendFrom_all_fail (attempt : Nat → Except MqttErrorM R)
    (max_retries retry_interval : Nat) (errs : Nat → MqttErrorM) :
    ∀ n c, max_retries - c = n → c ≤ max_retries →
      (∀ i, c ≤ i → i ≤ max_retries → attempt i = .error (errs i)) →
      sendFrom attempt max_retries retry_interval c =
        ⟨.error (errs max_retries), max_retries - c + 1,
          List.replicate (max_retries - c) retry_interval⟩ := by
  intro n
  induction n with
  | zero =>
    intro c hn hc hfail
    have hce : c = max_retries := by omega
    subst hce
    rw [sendFrom, hfail c le_rfl le_rfl]
    simp
  | succ n ih =>
    intro c hn hc hfail
    have hlt : c < max_retries := by omega
    have h1 : max_retries - (c + 1) = n := by omega
    rw [sendFrom, hfail c le_rfl hc]
    rw [ih (c + 1) h1 (by omega) (fun i hi1 hi2 => hfail i (by omega) hi2)]
    simp [hlt, hn, h1, List.replicate_succ]

/-- Helper: when attempts `c, …, c+k-1` fail and attempt `c+k` succeeds while
retries remain, the send loop returns the success reply after `k+1` attempts
with `k` sleeps. -/
theorem sendFrom_first_success (attempt : Nat → Except MqttErrorM R)
    (max_retries retry_interval : Nat) (reply : R) :
    ∀ k c, c + k ≤ max_retries →
      (∀ i, c ≤ i → i < c + k → ∃ e, attempt i = .error e) →
      attempt (c + k) = .ok reply →
      sendFrom attempt max_retries retry_interval c =
        ⟨.ok reply, k + 1, List.replicate k retry_interval⟩ := by
  intro k
  induction k with
  | zero =>
    intro c _ _ hsucc
    rw [show c + 0 = c from rfl] at hsucc
    rw [sendFrom, hsucc]
    simp
  | succ k ih =>
    intro c hk hfail hsucc
    obtain ⟨e, he⟩ := hfail c le_rfl (by omega)
    have hlt : c < max_retries := by omega
    have hsucc1 : attempt (c + 1 + k) = .ok reply := by
      have hx : c + 1 + k = c + (k + 1) := by omega
      rw [hx]; exact hsucc
    rw [sendFrom, he]
    rw [ih (c + 1) (by omega)
      (fun i hi1 hi2 => hfail i (by omega) (by omega)) hsucc1]
    simp [hlt, List.replicate_succ]

/-- C2: for a destination that fails every attempt, `MessageSender::send`
returns the final (last) error after exactly `max_retries + 1` attempts,
sleeping the fixed `retry_interval` between consecutive attempts; for a
destination that fails the first `k` attempts (`k ≤ max_retries`) then
succeeds, it returns the success reply of the remote (after `k + 1` attempts). -/
theorem send_retry_spec (attempt1 attempt2 : Nat → Except MqttErrorM R)
    (max_retries retry_interval k : Nat) (errs : Nat → MqttErrorM) (reply : R)
    (hall : ∀ i, i ≤ max_retries → attempt1 i = .error (errs i))
    (hk : k ≤ max_retries)
    (hfail : ∀ i, i < k → ∃ e, attempt2 i = .error e)
    (hsucc : attempt2 k = .ok reply) :
    send attempt1 max_retries retry_interval =
      ⟨.error (errs max_retries), max_retries + 1,
        List.replicate max_retries retry_interval⟩ ∧
    send attempt2 max_retries retry_interval =
      ⟨.ok reply, k + 1, List.replicate k retry_interval⟩ := by
  constructor
  · have h := sendFrom_all_fail attempt1 max_retries retry_interval errs max_retries 0
      (by omega) (by omega) (fun i _ hi2 => hall i hi2)
    simpa [send] using h
  · have h := sendFrom_first_success attempt2 max_retries retry_interval reply k 0
      (by omega) (fun i _ hi2 => hfail i (by omega)) (by simpa using hsucc)
    simpa [send] using h

/-- Witness for C2: `max_retries = 2`, an always-failing destination and a
destination that fails once then replies `42`. -/
theorem send_retry_spec_witness :
    send (fun _ => (.error .boxedError : Except MqttErrorM Nat)) 2 7 =
      ⟨.error .boxedError, 2 + 1, List.replicate 2 7⟩ ∧
    send (fun i => if i < 1 then (.error .boxedError : Except MqttErrorM Nat) else .ok 42)
        2 7 =
      ⟨.ok 42, 1 + 1, List.replicate 1 7⟩ :=
  send_retry_spec (fun _ => .error .boxedError)
    (fun i => if i < 1 then .error .boxedError else .ok 42) 2 7 1
    (fun _ => .boxedError) 42 (fun _ _ => rfl) (by omega)
    (fun i hi => ⟨.boxedError, if_pos hi⟩) rfl

/-- Helper: the first round whose resolution yields at least one endpoint
returns that endpoint immediately, with all earlier rounds retried. -/
theorem parseAddrGo_first_success (resolve : Nat → Except Unit (List String))
    (addr a : String) (rest : List String) :
    ∀ k i fuel, k < fuel → resolve (i + k) = .ok (a :: rest) →
      (∀ j, j < k → noEndpoint (resolve (i + j)) = true) →
      parseAddrGo resolve addr i fuel = (.ok a, k + 1) := by
  intro k
  induction k with
  | zero =>
    intro i fuel hk hres _
    match fuel, hk with
    | f + 1, _ =>
      rw [show i + 0 = i from rfl] at hres
      simp [parseAddrGo, hres]
  | succ k ih =>
    intro i fuel hk hres hprev
    match fuel, hk with
    | f + 1, hk =>
      have h0 : noEndpoint (resolve i) = true := by simpa using hprev 0 (by omega)
      have hres1 : resolve (i + 1 + k) = .ok (a :: rest) := by
        have hx : i + 1 + k = i + (k + 1) := by omega
        rw [hx]; exact hres
      have hprev1 : ∀ j, j < k → noEndpoint (resolve (i + 1 + j)) = true := by
        intro j hj
        have hx : i + 1 + j = i + (j + 1) := by omega
        rw [hx]; exact hprev (j + 1) (by omega)
      have hrec := ih (i + 1) f (by omega) hres1 hprev1
      cases hri : resolve i with
      | ok l =>
        cases l with
        | nil => simp [parseAddrGo, hri, hrec]
        | cons x xs => rw [hri] at h0; simp [noEndpoint] at h0
      | error e => simp [parseAddrGo, hri, hrec]

/-- Helper: when every round in the budget yields no endpoint, the loop
performs exactly `fuel` attempts and returns the formatted error. -/
theorem parseAddrGo_exhausted (resolve : Nat → Except Unit (List String)) (addr : String) :
    ∀ fuel i, (∀ j, j < fuel → noEndpoint (resolve (i + j)) = true) →
      parseAddrGo resolve addr i fuel =
        (.error (.fromMsg ("Parsing address\"" ++ addr ++ "\" error")), fuel) := by
  intro fuel
  induction fuel with
  | zero => intro i _; rfl
  | succ f ih =>
    intro i h
    have h0 : noEndpoint (resolve i) = true := by simpa using h 0 (by omega)
    have hrec := ih (i + 1) (fun j hj => by
      have hx : i + 1 + j = i + (j + 1) := by omega
      rw [hx]; exact h (j + 1) (by omega))
    cases hri : resolve i with
    | ok l =>
      cases l with
      | nil => simp [parseAddrGo, hri, hrec]
      | cons x xs => rw [hri] at h0; simp [noEndpoint] at h0
    | error e => simp [parseAddrGo, hri, hrec]

/-- Helper: a round resolving successfully to zero results drives the loop
exactly as a resolution error does. -/
theorem parseAddrGo_empty_eq_error (ra rb : Nat → Except Unit (List String))
    (addr : String) (i2 : Nat)
    (hsame : ∀ j, j ≠ i2 → ra j = rb j) (hai : ra i2 = .ok []) (hbi : rb i2 = .error ()) :
    ∀ fuel i, parseAddrGo ra addr i fuel = parseAddrGo rb addr i fuel := by
  intro fuel
  induction fuel with
  | zero => intro _; rfl
  | succ f ih =>
    intro i
    by_cases hi : i = i2
    · subst hi
      simp [parseAddrGo, hai, hbi, ih]
    · have h := hsame i hi
      cases hri : ra i with
      | ok l =>
        cases l with
        | nil => simp [parseAddrGo, hri, ← h, ih]
        | cons x xs => simp [parseAddrGo, hri, ← h]
      | error e => simp [parseAddrGo, hri, ← h, ih]

/-- C3: `parse_addr` returns the first resolved endpoint on the first round
whose resolution yields at least one result; a round that succeeds with zero
results behaves identically to a resolution error (the loop retries); and an
address that never resolves fails after exactly 10 attempts with an error
message naming the original address. -/
theorem parse_addr_spec (addr a : String) (rest : List String)
    (resolve1 resolve2a resolve2b resolve3 : Nat → Except Unit (List String))
    (i i2 : Nat)
    (h1i : i < 10) (h1res : resolve1 i = .ok (a :: rest))
    (h1prev : ∀ j, j < i → noEndpoint (resolve1 j) = true)
    (h2same : ∀ j, j ≠ i2 → resolve2a j = resolve2b j)
    (h2a : resolve2a i2 = .ok []) (h2b : resolve2b i2 = .error ())
    (h3 : ∀ j, j < 10 → noEndpoint (resolve3 j) = true) :
    parse_addr resolve1 addr = (.ok a, i + 1) ∧
    parse_addr resolve2a addr = parse_addr resolve2b addr ∧
    parse_addr resolve3 addr =
      (.error (.fromMsg ("Parsing address\"" ++ addr ++ "\" error")), 10) := by
  refine ⟨?_, ?_, ?_⟩
  · have h := parseAddrGo_first_success resolve1 addr a rest i 0 10 h1i
      (by simpa using h1res) (fun j hj => by simpa using h1prev j hj)
    simpa [parse_addr] using h
  · exact parseAddrGo_empty_eq_error resolve2a resolve2b addr i2 h2same h2a h2b 10 0
  · have h := parseAddrGo_exhausted resolve3 addr 10 0 (fun j hj => by simpa using h3 j hj)
    simpa [parse_addr] using h

/-- Witness for C3: an address resolving on round 2, an empty-result round
matching an error round, and a never-resolving address. -/
theorem parse_addr_spec_witness :
    parse_addr (fun j => if j < 2 then .error () else .ok ["1.2.3.4:1"])
        "raft.local:6003" = (.ok "1.2.3.4:1", 2 + 1) ∧
    parse_addr (fun j => if j = 0 then .ok [] else .ok ["x"]) "raft.local:6003" =
      parse_addr (fun j => if j = 0 then .error () else .ok ["x"]) "raft.local:6003" ∧
    parse_addr (fun _ => .error ()) "raft.local:6003" =
      (.error (.fromMsg ("Parsing address\"" ++ "raft.local:6003" ++ "\" error")), 10) :=
  parse_addr_spec "raft.local:6003" "1.2.3.4:1" []
    (fun j => if j < 2 then .error () else .ok ["1.2.3.4:1"])
    (fun j => if j = 0 then .ok [] else .ok ["x"])
    (fun j => if j = 0 then .error () else .ok ["x"])
    (fun _ => .error ()) 2 0 (by omega) rfl
    (fun j hj => by simp only [if_pos hj]; rfl)
    (fun j hj => by simp [hj]) rfl rfl (fun _ _ => rfl)

/-- Helper: if the status query first reports started on attempt `k` (with all
earlier attempts reporting not-started or erroring), the polling loop stops
after `k + 1` attempts, having slept 500 ms after each earlier attempt. -/
theorem initPollGo_started (statusq : Nat → Except Unit Status) (s : Status)
    (hs : s.is_started = true) :
    ∀ k i fuel, k < fuel → statusq (i + k) = .ok s →
      (∀ j, j < k → notStartedAt statusq (i + j) = true) →
      initPollGo statusq i fuel = (k + 1, List.replicate k 500) := by
  intro k
  induction k with
  | zero =>
    intro i fuel hk hres _
    match fuel, hk with
    | f + 1, _ =>
      rw [show i + 0 = i from rfl] at hres
      simp [initPollGo, hres, hs]
  | succ k ih =>
    intro i fuel hk hres hprev
    match fuel, hk with
    | f + 1, hk =>
      have h0 : notStartedAt statusq i = true := by simpa using hprev 0 (by omega)
      have hres1 : statusq (i + 1 + k) = .ok s := by
        have hx : i + 1 + k = i + (k + 1) := by omega
        rw [hx]; exact hres
      have hprev1 : ∀ j, j < k → notStartedAt statusq (i + 1 + j) = true := by
        intro j hj
        have hx : i + 1 + j = i + (j + 1) := by omega
        rw [hx]; exact hprev (j + 1) (by omega)
      have hrec := ih (i + 1) f (by omega) hres1 hprev1
      cases hri : statusq i with
      | ok st =>
        cases hb : st.is_started with
        | true => rw [notStartedAt, hri] at h0; simp [hb] at h0
        | false => simp [initPollGo, hri, hb, hrec, List.replicate_succ]
      | error e => simp [initPollGo, hri, hrec, List.replicate_succ]

/-- Helper: if no attempt in the budget observes a started status, the polling
loop performs exactly `fuel` attempts, sleeping 500 ms after each. -/
theorem initPollGo_never (statusq : Nat → Except Unit Status) :
    ∀ fuel i, (∀ j, j < fuel → notStartedAt statusq (i + j) = true) →
      initPollGo statusq i fuel = (fuel, List.replicate fuel 500) := by
  intro fuel
  induction fuel with
  | zero => intro _ _; rfl
  | succ f ih =>
    intro i h
    have h0 : notStartedAt statusq i = true := by simpa using h 0 (by omega)
    have hrec := ih (i + 1) (fun j hj => by
      have hx : i + 1 + j = i + (j + 1) := by omega
      rw [hx]; exact h (j + 1) (by omega))
    cases hri : statusq i with
    | ok st =>
      cases hb : st.is_started with
      | true => rw [notStartedAt, hri] at h0; simp [hb] at h0
      | false => simp [initPollGo, hri, hb, hrec, List.replicate_succ]
    | error e => simp [initPollGo, hri, hrec, List.replicate_succ]

/-- C4: the init startup gate polls status up to 30 attempts with a fixed
500 ms sleep: started first reported on attempt `i < 30` stops the loop at
attempt `i` (`i + 1` attempts, not 30); a never-started status gives exactly
30 attempts; and for any status oracle whatsoever (query errors included),
once `start_raft` has succeeded `init` proceeds and returns `Ok`, storing the
mailbox. -/
theorem init_poll_spec (q1 q2 : Nat → Except Unit Status) (i : Nat) (s : Status)
    (h1i : i < 30) (h1s : q1 i = .ok s) (h1started : s.is_started = true)
    (h1prev : ∀ j, j < i → notStartedAt q1 j = true)
    (h2 : ∀ j, j < 30 → notStartedAt q2 j = true)
    (p : ClusterPlugin) (env : RaftEnv) (id : Nat)
    (statusq : Mailbox → Nat → Except Unit Status) (mb : Mailbox) (role : Role)
    (hsr : (start_raft env id p.raft_peer_addrs).1 = .ok (mb, role)) :
    initPoll q1 = (i + 1, List.replicate i 500) ∧
    initPoll q2 = (30, List.replicate 30 500) ∧
    p.init env id statusq = .ok { p with raft_mailbox := some mb } := by
  refine ⟨?_, ?_, ?_⟩
  · have h := initPollGo_started q1 s h1started i 0 30 h1i (by simpa using h1s)
      (fun j hj => by simpa using h1prev j hj)
    simpa [initPoll] using h
  · have h := initPollGo_never q2 30 0 (fun j hj => by simpa using h2 j hj)
    simpa [initPoll] using h
  · simp [ClusterPlugin.init, hsr]

/-- Witness for C4: a status oracle first reporting started on attempt 2, a
never-started oracle, and an `init` over an always-erroring oracle that still
returns `Ok` with the mailbox stored. -/
theorem init_poll_spec_witness :
    initPoll (fun j => if j < 2 then .error () else .ok ⟨true⟩) =
      (2 + 1, List.replicate 2 500) ∧
    initPoll (fun _ => .ok ⟨false⟩) = (30, List.replicate 30 500) ∧
    ClusterPlugin.init ⟨fun _ _ => .ok ["r"], fun _ => .ok ⟨7⟩, fun _ => .ok none⟩ 1
        (fun _ _ => .error ()) (ClusterPlugin.mk "cluster" "d" [⟨1, "a"⟩] none) =
      .ok (ClusterPlugin.mk "cluster" "d" [⟨1, "a"⟩] (some ⟨7⟩)) :=
  init_poll_spec (fun j => if j < 2 then .error () else .ok ⟨true⟩)
    (fun _ => .ok ⟨false⟩) 2 ⟨true⟩ (by omega) rfl rfl
    (fun j hj => by simp [notStartedAt, hj])
    (fun _ _ => rfl)
    (ClusterPlugin.mk "cluster" "d" [⟨1, "a"⟩] none)
    ⟨fun _ _ => .ok ["r"], fun _ => .ok ⟨7⟩, fun _ => .ok none⟩ 1
    (fun _ _ => .error ()) ⟨7⟩ (.leader 1) rfl

/-- C5: when the configured raft peer list has no entry whose id equals the
local node id, `start_raft` fails deterministically with the descriptive
"raft listening address does not exist" error and an empty network trace: no
address resolved, no engine constructed, no peer probed. -/
theorem start_raft_missing_self (env : RaftEnv) (id : Nat) (peers : List NodeAddr)
    (h : ∀ peer ∈ peers, peer.id ≠ id) :
    start_raft env id peers =
      (.error (.fromMsg "raft listening address does not exist"), []) := by
  have hf : peers.find? (fun peer => peer.id == id) = none := by
    rw [List.find?_eq_none]
    intro p hp
    simp [h p hp]
  simp [start_raft, hf]

/-- Witness for C5: local node 1 absent from a peer list containing only
node 2. -/
theorem start_raft_missing_self_witness :
    start_raft ⟨fun _ _ => .ok ["r"], fun _ => .ok ⟨7⟩, fun _ => .ok none⟩ 1 [⟨2, "b"⟩] =
      (.error (.fromMsg "raft listening address does not exist"), []) :=
  start_raft_missing_self _ 1 [⟨2, "b"⟩] (by decide)

/-- C6: once validation, resolution and engine construction succeed,
`start_raft` branches on the leader probe: `find_leader_info` returning `None`
makes the runner drive the LEADER role with the local node id
(`roleOfLeaderInfo id none = .leader id`), and `Some (leader_id, leader_addr)`
makes it drive the FOLLOWER role with the local id, discovered leader id, and
discovered leader address (`roleOfLeaderInfo id (some (l, a)) = .follower id l a`). -/
theorem start_raft_role_branch (env : RaftEnv) (id : Nat) (peers : List NodeAddr)
    (sp : NodeAddr) (a : String) (mb : Mailbox) (pas : List String)
    (li : Option (Nat × String)) (tr : List NetEvent)
    (hfind : peers.find? (fun peer => peer.id == id) = some sp)
    (hladdr : (parse_addr (env.resolve sp.addr) sp.addr).1 = .ok a)
    (hnew : env.raft_new sp.addr = .ok mb)
    (hpeers : resolvePeers env id peers = (.ok pas, tr))
    (hprobe : env.find_leader_info pas = .ok li) :
    (start_raft env id peers).1 = .ok (mb, roleOfLeaderInfo id li) := by
  simp [start_raft, hfind, hladdr, hnew, hpeers, hprobe]

/-- Witness for C6: the same two-node configuration, once with the probe
finding no leader (LEADER role for the local id 1), once with the probe
finding leader 2 at "b0" (FOLLOWER role naming id 1, leader 2, "b0"). -/
theorem start_raft_role_branch_witness :
    (start_raft ⟨fun _ _ => .ok ["r"], fun _ => .ok ⟨7⟩, fun _ => .ok none⟩ 1
        [⟨1, "a"⟩, ⟨2, "b"⟩]).1 = .ok (⟨7⟩, Role.leader 1) ∧
    (start_raft ⟨fun _ _ => .ok ["r"], fun _ => .ok ⟨7⟩, fun _ => .ok (some (2, "b0"))⟩ 1
        [⟨1, "a"⟩, ⟨2, "b"⟩]).1 = .ok (⟨7⟩, Role.follower 1 2 "b0") :=
  ⟨start_raft_role_branch _ 1 _ ⟨1, "a"⟩ "r" ⟨7⟩ ["r"] none [.resolveAddr "b"]
      rfl rfl rfl rfl rfl,
   start_raft_role_branch _ 1 _ ⟨1, "a"⟩ "r" ⟨7⟩ ["r"] (some (2, "b0")) [.resolveAddr "b"]
      rfl rfl rfl rfl rfl⟩

end RmqttClusterRaft
